import Mathlib

/-!
Verification development for the modify_project repository.

The ai-service image-analysis pipeline (src/ai-service/src/main.py) and the
backend search pipeline (src/backend-core/src/crud/crud_product.py and
src/backend-core/src/api/v1/endpoints/search.py) are shallowly embedded
below.  External collaborators (the generative model engine, the storage
distance computation of the engine, Pydantic response schemas that are not part
of the given sources) are modelled as explicit parameters or, where noted,
from the specification.
-/

namespace Modify

/-- The opening curly brace character, written via its code point. -/
def lbrace : Char := Char.ofNat 123

/-- The closing curly brace character, written via its code point. -/
def rbrace : Char := Char.ofNat 125

/-- Parsed JSON values as produced by Python json.loads, restricted to
integer numerics (the inputs of interest to the pipeline carry strings and
integers). -/
inductive Json where
  | null : Json
  | bool (b : Bool) : Json
  | num (n : Int) : Json
  | str (s : String) : Json
  | arr (elems : List Json) : Json
  | obj (fields : List (String × Json)) : Json

/-- JSON insignificant whitespace characters. -/
def isJsonWs (c : Char) : Bool :=
  ([' ', '\t', '\n', '\r'] : List Char).contains c

/-- Drop leading JSON whitespace. -/
def skipWs (cs : List Char) : List Char := cs.dropWhile isJsonWs

/-- The JSON two-character escape table accepted by the embedded parser,
as pairs of escape letter and denoted character. -/
def escTable : List (Char × Char) :=
  [('n', '\n'), ('t', '\t'), ('r', '\r'), ('"', '"'), ('/', '/'),
   ('\\', '\\'), ('b', Char.ofNat 8), ('f', Char.ofNat 12)]

/-- JSON string escape characters accepted by the embedded parser. -/
def escChar (e : Char) : Option Char :=
  (escTable.find? (fun pr => pr.1 == e)).map (fun pr => pr.2)

/-- Parse the body of a JSON string literal (the opening quote already
consumed), returning the decoded characters and the rest of the input. -/
def parseStringAux : List Char → Option (List Char × List Char)
  | [] => none
  | '"' :: rest => some ([], rest)
  | '\\' :: [] => none
  | '\\' :: e :: rest =>
    match escChar e with
    | some d =>
      match parseStringAux rest with
      | some (s, r) => some (d :: s, r)
      | none => none
    | none => none
  | c :: rest =>
    match parseStringAux rest with
    | some (s, r) => some (c :: s, r)
    | none => none

/-- Numeric value of a list of decimal digit characters. -/
def digitsVal (ds : List Char) : Nat :=
  ds.foldl (fun n c => 10 * n + (c.toNat - 48)) 0

/-- Parse a decimal natural number; rejects a following fractional or
exponent marker (the embedding covers integer JSON numerics only). -/
def parseNat (cs : List Char) : Option (Nat × List Char) :=
  let ds := cs.takeWhile Char.isDigit
  let rest := cs.dropWhile Char.isDigit
  if ds.isEmpty then none
  else
    match rest with
    | [] => some (digitsVal ds, [])
    | c :: _ =>
      if (['.', 'e', 'E'] : List Char).contains c then none
      else some (digitsVal ds, rest)

mutual

/-- Fuel-indexed JSON value parser mirroring Python json.loads on the
fragment used by the pipeline. -/
def parseVal : Nat → List Char → Option (Json × List Char)
  | 0, _ => none
  | Nat.succ fuel, cs0 =>
    let cs := skipWs cs0
    match cs with
    | [] => none
    | c :: rest =>
      if c == lbrace then
        match parseMembers fuel rest with
        | some (ms, r) => some (Json.obj ms, r)
        | none => none
      else if c == '[' then
        match parseElems fuel rest with
        | some (vs, r) => some (Json.arr vs, r)
        | none => none
      else if c == '"' then
        match parseStringAux rest with
        | some (s, r) => some (Json.str (String.mk s), r)
        | none => none
      else if c == '-' then
        match parseNat rest with
        | some (n, r) => some (Json.num (-(n : Int)), r)
        | none => none
      else if c.isDigit then
        match parseNat (c :: rest) with
        | some (n, r) => some (Json.num (n : Int), r)
        | none => none
      else if List.isPrefixOf ("true".toList) cs then some (Json.bool true, cs.drop 4)
      else if List.isPrefixOf ("false".toList) cs then some (Json.bool false, cs.drop 5)
      else if List.isPrefixOf ("null".toList) cs then some (Json.null, cs.drop 4)
      else none

/-- Fuel-indexed parser for the element list of a JSON array (the opening
bracket already consumed). -/
def parseElems : Nat → List Char → Option (List Json × List Char)
  | 0, _ => none
  | Nat.succ fuel, cs0 =>
    let cs := skipWs cs0
    match cs with
    | [] => none
    | c :: rest =>
      if c == ']' then some ([], rest)
      else
        match parseVal fuel cs with
        | some (v, r) =>
          match skipWs r with
          | [] => none
          | c2 :: r2 =>
            if c2 == ',' then
              match parseElems fuel r2 with
              | some (vs, r3) => some (v :: vs, r3)
              | none => none
            else if c2 == ']' then some ([v], r2)
            else none
        | none => none

/-- Fuel-indexed parser for the member list of a JSON object (the opening
brace already consumed). -/
def parseMembers : Nat → List Char → Option (List (String × Json) × List Char)
  | 0, _ => none
  | Nat.succ fuel, cs0 =>
    let cs := skipWs cs0
    match cs with
    | [] => none
    | c :: rest =>
      if c == rbrace then some ([], rest)
      else if c == '"' then
        match parseStringAux rest with
        | some (k, r) =>
          match skipWs r with
          | [] => none
          | c2 :: r2 =>
            if c2 == ':' then
              match parseVal fuel r2 with
              | some (v, r3) =>
                match skipWs r3 with
                | [] => none
                | c3 :: r4 =>
                  if c3 == ',' then
                    match parseMembers fuel r4 with
                    | some (ms, r5) => some ((String.mk k, v) :: ms, r5)
                    | none => none
                  else if c3 == rbrace then some ([(String.mk k, v)], r4)
                  else none
              | none => none
            else none
        | none => none
      else none

end

/-- Python json.loads: parse one JSON value and require that only
whitespace remains. -/
def parseJson (s : String) : Option Json :=
  match parseVal (s.length + 1) s.toList with
  | some (v, r) => if (skipWs r).isEmpty then some v else none
  | none => none

/-- The span matched by the Python regex search for a brace-delimited
block: from the leftmost opening brace through the last closing brace of
the whole text (the Kleene star in the pattern is greedy); no match when
no closing brace follows an opening brace. -/
def regexSpan (cs : List Char) : Option (List Char) :=
  let afterBrace := cs.dropWhile (fun c => c != lbrace)
  let span := (afterBrace.reverse.dropWhile (fun c => c != rbrace)).reverse
  if span.isEmpty then none else some span

/-- Fuel-indexed worker for fencing removal; every step consumes at least
one character, so fuel equal to the input length suffices. -/
def stripFenceAux : Nat → List Char → List Char
  | 0, l => l
  | Nat.succ fuel, l =>
    match l with
    | [] => []
    | c :: cs =>
      if List.isPrefixOf ("```json".toList) (c :: cs) then stripFenceAux fuel (cs.drop 6)
      else if List.isPrefixOf ("```".toList) (c :: cs) then stripFenceAux fuel (cs.drop 2)
      else c :: stripFenceAux fuel cs

/-- Removal of markdown fencing tokens, mirroring the Python substitution
that deletes every occurrence of a fenced-json opener or a plain fence,
scanning left to right with the longer token tried first. -/
def stripFence (l : List Char) : List Char := stripFenceAux l.length l

/-- Boolean infix test on character lists (Python substring containment). -/
def infixOf (needle : List Char) : List Char → Bool
  | [] => needle.isEmpty
  | c :: rest => List.isPrefixOf needle (c :: rest) || infixOf needle rest

/-- Python substring containment on strings. -/
def containsStr (hay needle : String) : Bool := infixOf needle.toList hay.toList

/-- Python truthiness of a parsed JSON value. -/
def truthy : Json → Bool
  | .null => false
  | .bool b => b
  | .num n => n != 0
  | .str s => !s.isEmpty
  | .arr l => !l.isEmpty
  | .obj l => !l.isEmpty

mutual

/-- Python repr of a parsed JSON value (integer numerics; strings are
single-quoted without escape refinement, which the pipeline only feeds to
digit filtering and to the embedding prompt). -/
def pyRepr : Json → String
  | .null => "None"
  | .bool true => "True"
  | .bool false => "False"
  | .num n => toString n
  | .str s => "\x27" ++ s ++ "\x27"
  | .arr l => "[" ++ pyReprElems l ++ "]"
  | .obj l => "\x7b" ++ pyReprMembers l ++ "\x7d"

/-- Comma-separated reprs of array elements. -/
def pyReprElems : List Json → String
  | [] => ""
  | v :: vs =>
    pyRepr v ++ (if vs.isEmpty then "" else ", ") ++ pyReprElems vs

/-- Comma-separated reprs of object members. -/
def pyReprMembers : List (String × Json) → String
  | [] => ""
  | (k, v) :: ms =>
    "\x27" ++ k ++ "\x27: " ++ pyRepr v ++
      (if ms.isEmpty then "" else ", ") ++ pyReprMembers ms

end

/-- Python str() of a parsed JSON value. -/
def pyStr : Json → String
  | .str s => s
  | v => pyRepr v

/-- Python equality between a string and a parsed JSON value. -/
def strEqJson (s : String) (v : Json) : Bool :=
  match v with
  | .str t => s == t
  | _ => false

/-- Python membership test of a string inside a parsed JSON value:
substring on strings, element equality on lists, key membership on
objects, and a TypeError (modelled as none) on scalars. -/
def pyIn (needle : String) (v : Json) : Option Bool :=
  match v with
  | .str s => some (containsStr s needle)
  | .arr l => some (l.any (fun x => strEqJson needle x))
  | .obj l => some (l.any (fun kv => kv.1 == needle))
  | _ => none

/-- Python len() of a parsed JSON value; a TypeError (none) on scalars. -/
def pyLen : Json → Option Nat
  | .str s => some s.length
  | .arr l => some l.length
  | .obj l => some l.length
  | _ => none

/-- Python dict lookup on parsed object members (a duplicate key keeps its
last binding, as in json.loads). -/
def pyGet (kvs : List (String × Json)) (k : String) : Option Json :=
  List.lookup k kvs.reverse

/-- The per-field fallback product name built from the base name of the
uploaded file. -/
def fallbackName (fname : String) : String :=
  "AI 추천 상품 (" ++ ((fname.splitOn (".")).headD ("")) ++ ")"

/-- The fixed fallback product description. -/
def fallbackDesc : String :=
  "AI가 이미지를 분석하여 추천하는 상품입니다. 매력적인 스타일과 뛰어난 품질을 자랑합니다."

/-- Name validation: falsy or absent values and values echoing the prompt
placeholder tokens fall back to the generated label; the membership test
on a truthy scalar raises (error), as in Python. -/
def validateName (v : Option Json) (fname : String) : Except Unit Json :=
  match v with
  | none => .ok (.str (fallbackName fname))
  | some jv =>
    if !truthy jv then .ok (.str (fallbackName fname))
    else
      match pyIn ("상품명") jv with
      | none => .error ()
      | some true => .ok (.str (fallbackName fname))
      | some false =>
        match pyIn ("JSON") jv with
        | none => .error ()
        | some true => .ok (.str (fallbackName fname))
        | some false => .ok jv

/-- Description validation: falsy or absent values and values of length
below 10 fall back to the fixed sentence; len() on a truthy scalar raises
(error), as in Python. -/
def validateDesc (v : Option Json) : Except Unit Json :=
  match v with
  | none => .ok (.str fallbackDesc)
  | some jv =>
    if !truthy jv then .ok (.str fallbackDesc)
    else
      match pyLen jv with
      | none => .error ()
      | some n => if n < 10 then .ok (.str fallbackDesc) else .ok jv

/-- Price coercion: stringify the value (0 when absent), keep only the
decimal digits, and read them as an integer; no digits yields 0.  The
surrounding Python try/except absorbs the only possible failure (int of
an empty string), so the function is total. -/
def coercePrice (v : Option Json) : Nat :=
  let raw := pyStr (v.getD (.num 0))
  let ds := raw.toList.filter Char.isDigit
  if ds.isEmpty then 0 else digitsVal ds

/-- The four normalized fields of an image analysis, before embedding. -/
structure NormFields where
  name : Json
  category : Json
  description : Json
  price : Nat

/-- Per-field normalization block of the image-analysis handler: attribute
lookup on a non-dict parse result raises (as the first .get call does in
Python), then each field is validated from its own entry in order. -/
def normalizeFields (pd : Json) (fname : String) : Except Unit NormFields :=
  match pd with
  | .obj kvs =>
    match validateName (pyGet kvs ("name")) fname with
    | .error e => .error e
    | .ok n =>
      match validateDesc (pyGet kvs ("description")) with
      | .error e => .error e
      | .ok d =>
        .ok ⟨n, (pyGet kvs ("category")).getD (.str ("Uncategorized")),
             d, coercePrice (pyGet kvs ("price"))⟩
  | _ => .error ()

/-- The value bound to product_data after the extraction try/except: parse
the greedy brace span with fencing stripped when the regex matches,
otherwise parse the whole text; any parse failure leaves the initial empty
dict. -/
def extractData (text : String) : Json :=
  match regexSpan text.toList with
  | some span =>
    match parseJson (String.mk (stripFence span)) with
    | some v => v
    | none => .obj []
  | none =>
    match parseJson text with
    | some v => v
    | none => .obj []

/-- The complete record returned by the image-analysis endpoint. -/
structure AnalysisRecord where
  name : Json
  category : Json
  description : Json
  price : Nat
  vector : List ℚ

/-- The text embedded for search, concatenating the stringified final
name, category and description. -/
def metaText (nf : NormFields) : String :=
  pyStr nf.name ++ " " ++ pyStr nf.category ++ " " ++ pyStr nf.description

/-- The safety check: a refusal marker anywhere in the raw model text. -/
def safetyTriggered (t : String) : Bool :=
  containsStr t ("cannot assist") || containsStr t ("I cannot")

/-- The try-block of the image-analysis handler.  File reading and the two
model-engine collaborators are oracles; every Python exception inside the
block is the error case. -/
def analyzeBody (readRes : Except Unit Unit) (genRes : Except Unit String)
    (embed : String → Except Unit (List ℚ)) (fname : String) :
    Except Unit AnalysisRecord :=
  match readRes with
  | .error e => .error e
  | .ok _ =>
    match genRes with
    | .error e => .error e
    | .ok generatedText =>
      if safetyTriggered generatedText then .error ()
      else
        match normalizeFields (extractData generatedText) fname with
        | .error e => .error e
        | .ok nf =>
          match embed (metaText nf) with
          | .error e => .error e
          | .ok vec => .ok ⟨nf.name, nf.category, nf.description, nf.price, vec⟩

/-- The terminal fallback record of the except block of the image-analysis handler. -/
def terminalFallback (fname : String) : AnalysisRecord :=
  ⟨.str ("등록된 상품 (" ++ fname ++ ")"), .str ("Etc"),
   .str ("이미지 분석에 실패했습니다. 관리자 모드에서 정보를 수정해주세요."), 0,
   List.replicate 768 0⟩

/-- The image-analysis endpoint: the record of the try-block on success, the
terminal fallback on any absorbed exception.  Total by construction: no
exception escapes the handler. -/
def analyze_image (readRes : Except Unit Unit) (genRes : Except Unit String)
    (embed : String → Except Unit (List ℚ)) (fname : String) : AnalysisRecord :=
  match analyzeBody readRes genRes embed fname with
  | .ok r => r
  | .error _ => terminalFallback fname

/-- The text-embedding endpoint: the vector of the collaborator on success and
a 768-dimension zero vector on any exception, returned as a success
response either way. -/
def embed_text (res : Except Unit (List ℚ)) : List ℚ :=
  match res with
  | .ok v => v
  | .error _ => List.replicate 768 0

/-- A persisted catalog product row; nullable columns are options and the
embedding is a rational vector. -/
structure Product where
  id : Nat
  name : Option String
  description : Option String
  price : Option Int
  stock_quantity : Option Int
  category : Option String
  image_url : Option String
  embedding : Option (List ℚ)
  is_active : Bool
  deleted_at : Option Nat
  created_at : Nat
  updated_at : Nat
deriving DecidableEq

/-- Distance of the embedding of a product to the query vector under the
metric of the storage engine, supplied as a parameter (the engine computes L2
distance; the retrieval logic depends only on the resulting ordering and
gating). -/
def distOf (dist : List ℚ → List ℚ → ℚ) (qv : List ℚ) (p : Product) : ℚ :=
  dist qv (p.embedding.getD [])

/-- The structural eligibility filters, applied in the construction order of the statement: active, not soft-deleted, embedding present. -/
def structFilter (items : List Product) : List Product :=
  ((items.filter (fun p => p.is_active)).filter
    (fun p => p.deleted_at.isNone)).filter (fun p => !p.embedding.isNone)

/-- The relevance gate: keep rows whose distance is strictly below the
threshold. -/
def thresholdFilter (dist : List ℚ → List ℚ → ℚ) (qv : List ℚ) (threshold : ℚ)
    (items : List Product) : List Product :=
  items.filter (fun p => decide (distOf dist qv p < threshold))

/-- The optional minimum-price filter, applied only when present; a NULL
price column fails the SQL comparison. -/
def filterMin (minPrice : Option Int) (items : List Product) : List Product :=
  match minPrice with
  | none => items
  | some m => items.filter (fun p =>
      match p.price with
      | some v => decide (m ≤ v)
      | none => false)

/-- The optional maximum-price filter, applied only when present. -/
def filterMax (maxPrice : Option Int) (items : List Product) : List Product :=
  match maxPrice with
  | none => items
  | some m => items.filter (fun p =>
      match p.price with
      | some v => decide (v ≤ m)
      | none => false)

/-- The id exclusion filter, applied only when the list is truthy. -/
def filterExclId (excludeId : List Nat) (items : List Product) : List Product :=
  if excludeId.isEmpty then items
  else items.filter (fun p => !(excludeId.contains p.id))

/-- The category exclusion filter, applied only when the list is truthy; a
NULL category fails the SQL comparison. -/
def filterExclCat (excludeCategory : List String) (items : List Product) :
    List Product :=
  if excludeCategory.isEmpty then items
  else items.filter (fun p =>
    match p.category with
    | some c => !(excludeCategory.contains c)
    | none => false)

/-- The optional conjunctive filters, in the construction order of the statement. -/
def optionalFilters (minPrice maxPrice : Option Int) (excludeId : List Nat)
    (excludeCategory : List String) (items : List Product) : List Product :=
  filterExclCat excludeCategory
    (filterExclId excludeId (filterMax maxPrice (filterMin minPrice items)))

/-- Comparison by distance to the query vector, the ORDER BY key. -/
def distLe (dist : List ℚ → List ℚ → ℚ) (qv : List ℚ) (a b : Product) : Prop :=
  distOf dist qv a ≤ distOf dist qv b

instance (dist : List ℚ → List ℚ → ℚ) (qv : List ℚ) :
    DecidableRel (distLe dist qv) := fun a b =>
  inferInstanceAs (Decidable (distOf dist qv a ≤ distOf dist qv b))

instance (dist : List ℚ → List ℚ → ℚ) (qv : List ℚ) :
    IsTotal Product (distLe dist qv) :=
  ⟨fun a b => le_total (distOf dist qv a) (distOf dist qv b)⟩

instance (dist : List ℚ → List ℚ → ℚ) (qv : List ℚ) :
    IsTrans Product (distLe dist qv) :=
  ⟨fun _ _ _ hab hbc => le_trans hab hbc⟩

/-- The full WHERE clause of the vector search: structural filters, then
the threshold gate, then the optional filters, in the construction order of the statement. -/
def searchFiltered (dist : List ℚ → List ℚ → ℚ) (items : List Product)
    (qv : List ℚ) (minPrice maxPrice : Option Int) (excludeId : List Nat)
    (excludeCategory : List String) (threshold : ℚ) : List Product :=
  optionalFilters minPrice maxPrice excludeId excludeCategory
    (thresholdFilter dist qv threshold (structFilter items))

/-- The vector search: filter, order ascending by distance, then cap at
limit. -/
def search_by_vector (dist : List ℚ → List ℚ → ℚ) (items : List Product)
    (query_vector : List ℚ) (limit : Nat) (min_price max_price : Option Int)
    (exclude_id : List Nat) (exclude_category : List String) (threshold : ℚ) :
    List Product :=
  (List.insertionSort (distLe dist query_vector)
    (searchFiltered dist items query_vector min_price max_price exclude_id
      exclude_category threshold)).take limit

/-- The cleansed per-item dictionary built by the search endpoint before
schema validation. -/
structure CleanRec where
  id : Nat
  name : String
  description : String
  price : Int
  stock_quantity : Int
  category : String
  image_url : Option String
  embedding : Option (List ℚ)
  is_active : Bool
  created_at : Nat
  updated_at : Nat
deriving DecidableEq

/-- The placeholder label substituted for missing or too-short names. -/
def placeholderName : String := "이름 미정 상품"

/-- Python strip(): remove whitespace from both ends of a string. -/
def pyStrip (s : String) : String :=
  String.mk
    (((s.toList.dropWhile Char.isWhitespace).reverse.dropWhile
      Char.isWhitespace).reverse)

/-- Name cleansing: a null, empty, or under-2-characters-after-strip name
becomes the placeholder label. -/
def cleanName (n : Option String) : String :=
  match n with
  | none => placeholderName
  | some s =>
    if s.isEmpty then placeholderName
    else if (pyStrip s).length < 2 then placeholderName
    else s

/-- Python or-coalescing on an optional string (a falsy empty string also
takes the default). -/
def pyOrStr (o : Option String) (d : String) : String :=
  match o with
  | some s => if s.isEmpty then d else s
  | none => d

/-- Python or-coalescing on an optional integer (a falsy zero also takes
the default). -/
def pyOrInt (o : Option Int) (d : Int) : Int :=
  match o with
  | some n => if n == 0 then d else n
  | none => d

/-- Per-item cleansing: the dictionary the endpoint assembles for each
retrieved product. -/
def cleanse (p : Product) : CleanRec :=
  ⟨p.id, cleanName p.name, pyOrStr p.description (""), pyOrInt p.price 0,
   pyOrInt p.stock_quantity 0, pyOrStr p.category ("Etc"), p.image_url,
   p.embedding, p.is_active, p.created_at, p.updated_at⟩

/-- The sanitization loop: cleanse each item in order and keep it exactly
when schema validation accepts it; a rejected item is skipped and the loop
continues. -/
def sanitize (validate : CleanRec → Bool) : List Product → List CleanRec
  | [] => []
  | p :: rest =>
    let d := cleanse p
    if validate d then d :: sanitize validate rest else sanitize validate rest

/-- Modelled from the spec: the ProductResponse schema validation
(src/schemas/product.py is not among the given sources).  Per the data
model, the public projection requires non-negative price and stock
quantity; the non-null name and category it also requires are already
guaranteed by cleansing. -/
def productResponseValid (d : CleanRec) : Bool :=
  decide (0 ≤ d.price) && decide (0 ≤ d.stock_quantity)

/-- A value of the response dictionary of the search endpoint. -/
inductive RespVal where
  | str (s : String)
  | products (l : List CleanRec)
deriving DecidableEq

/-- The success response dictionary returned by the search endpoint, with
its literal keys. -/
def aiSearchResponse (reason : String) (prods : List CleanRec) (path : String) :
    List (String × RespVal) :=
  [("status", RespVal.str ("SUCCESS")), ("answer", RespVal.str reason),
   ("products", RespVal.products prods), ("search_path", RespVal.str path)]

/-- An example distance metric for concrete instances: the head of the embedding of the item (the query is ignored). -/
def headDist (u v : List ℚ) : ℚ := v.headD (u.headD 0)

/-- An example catalog row at distance 1 under headDist. -/
def exP1 : Product :=
  ⟨1, some ("빨간 신발"), some ("멋진 신발"), some 10000, some 3, some ("Fashion"),
   none, some [1], true, none, 0, 0⟩

/-- An example catalog row at distance 3 under headDist. -/
def exP2 : Product :=
  ⟨2, some ("파란 가방"), none, some 20000, some 1, some ("Fashion"),
   none, some [3], true, none, 0, 0⟩

/-- An example catalog row whose cleansed dictionary fails the public
schema (negative price). -/
def exBad : Product :=
  ⟨3, none, none, some (-5), some 0, none, none, none, true, none, 0, 0⟩

/-! ## Theorems -/

/-- The sanitization loop is a filter of the cleansed input. -/
theorem sanitize_eq_filter (v : CleanRec → Bool) :
    ∀ l : List Product, sanitize v l = (l.map cleanse).filter v := by
  intro l
  induction l with
  | nil => rfl
  | cons p rest ih =>
    simp only [sanitize, List.map_cons, List.filter_cons]
    by_cases h : v (cleanse p) = true
    · simp [h, ih]
    · simp [h, ih]

/-- Claim C10: when embedding generation raises, the text-embedding
endpoint returns a success response carrying a 768-dimension all-zero
vector, which is non-empty and identical to the response for a genuinely
computed zero embedding. -/
theorem spec_c10 :
    embed_text (Except.error ()) = List.replicate 768 (0 : ℚ) ∧
    (embed_text (Except.error ())).length = 768 ∧
    (embed_text (Except.error ())).isEmpty = false ∧
    embed_text (Except.ok (List.replicate 768 (0 : ℚ))) = embed_text (Except.error ()) := by
  refine ⟨rfl, ?_, rfl, rfl⟩
  rw [show embed_text (Except.error ()) = List.replicate 768 (0 : ℚ) from rfl,
    List.length_replicate]

/-- Claim C5 counterexample: the success response of the search endpoint
has no entry under the key named reason — the reason string is returned
under a different key. -/
theorem spec_c5_counterexample :
    List.lookup ("reason") (aiSearchResponse ("r") [] ("INTERNAL")) = none := rfl

/-- Claim C5 as amended: a successful search response has status SUCCESS,
the human-readable reason string under the key named answer (not reason),
the sanitized products under products, and the resolved path under
search_path. -/
theorem spec_c5 (reason : String) (prods : List CleanRec) (path : String) :
    List.lookup ("status") (aiSearchResponse reason prods path)
        = some (RespVal.str ("SUCCESS")) ∧
    List.lookup ("answer") (aiSearchResponse reason prods path)
        = some (RespVal.str reason) ∧
    List.lookup ("products") (aiSearchResponse reason prods path)
        = some (RespVal.products prods) ∧
    List.lookup ("search_path") (aiSearchResponse reason prods path)
        = some (RespVal.str path) ∧
    List.lookup ("reason") (aiSearchResponse reason prods path) = none :=
  ⟨rfl, rfl, rfl, rfl, rfl⟩

/-- Claim C9: price coercion stringifies the value and strips non-digits —
a price string with non-digit characters yields the integer formed from
its remaining digits, a digit-free string or an absent price yields 0, and
the coercion is total (never a decode error). -/
theorem spec_c9 :
    coercePrice (some (Json.str ("₩10,000"))) = 10000 ∧
    coercePrice (some (Json.str ("9,900원"))) = 9900 ∧
    coercePrice none = 0 ∧
    (∀ s : String, (s.toList.filter Char.isDigit).isEmpty = true →
      coercePrice (some (Json.str s)) = 0) ∧
    (∀ s : String, (s.toList.filter Char.isDigit).isEmpty = false →
      coercePrice (some (Json.str s)) = digitsVal (s.toList.filter Char.isDigit)) ∧
    (∀ v : Json, coercePrice (some v) = 0 ∨
      coercePrice (some v) = digitsVal ((pyStr v).toList.filter Char.isDigit)) := by
  refine ⟨rfl, rfl, rfl, fun s h => ?_, fun s h => ?_, fun v => ?_⟩
  · show (if (s.toList.filter Char.isDigit).isEmpty then 0
      else digitsVal (s.toList.filter Char.isDigit)) = 0
    rw [if_pos h]
  · show (if (s.toList.filter Char.isDigit).isEmpty then 0
      else digitsVal (s.toList.filter Char.isDigit))
      = digitsVal (s.toList.filter Char.isDigit)
    rw [if_neg (by rw [h]; exact Bool.false_ne_true)]
  · by_cases h : (((pyStr v).toList.filter Char.isDigit)).isEmpty = true
    · left
      show (if ((pyStr v).toList.filter Char.isDigit).isEmpty then 0
        else digitsVal ((pyStr v).toList.filter Char.isDigit)) = 0
      rw [if_pos h]
    · right
      show (if ((pyStr v).toList.filter Char.isDigit).isEmpty then 0
        else digitsVal ((pyStr v).toList.filter Char.isDigit))
        = digitsVal ((pyStr v).toList.filter Char.isDigit)
      rw [if_neg h]

/-- Claim C9 witness: a digit-free price string coerces to 0. -/
theorem spec_c9_witness : coercePrice (some (Json.str ("abc"))) = 0 :=
  spec_c9.2.2.2.1 ("abc") rfl

/-- Claim C6: a raw model text containing a refusal marker makes the
handler raise at the safety check before extraction, so the endpoint
returns the full fallback record — every field fallback-derived, no
extracted value used. -/
theorem spec_c6 (t : String) (embed : String → Except Unit (List ℚ)) (fname : String)
    (h : containsStr t ("cannot assist") = true ∨ containsStr t ("I cannot") = true) :
    analyze_image (Except.ok ()) (Except.ok t) embed fname = terminalFallback fname := by
  have hcond : safetyTriggered t = true := by
    unfold safetyTriggered
    rcases h with h | h
    · rw [h, Bool.true_or]
    · rw [h, Bool.or_true]
  have hbody : analyzeBody (Except.ok ()) (Except.ok t) embed fname = Except.error () := by
    simp only [analyzeBody]
    rw [if_pos hcond]
  unfold analyze_image
  rw [hbody]

/-- Claim C6 witness: a concrete refusal text yields the full fallback. -/
theorem spec_c6_witness :
    analyze_image (Except.ok ()) (Except.ok ("I cannot help with that"))
        (fun _ => Except.ok [(1 : ℚ)]) ("shoe.jpg")
      = terminalFallback ("shoe.jpg") :=
  spec_c6 ("I cannot help with that") (fun _ => Except.ok [(1 : ℚ)]) ("shoe.jpg")
    (Or.inr rfl)

/-- Claim C3: the image-analysis endpoint is total over all collaborator
behaviors — it returns the complete record of the try-block when the block
succeeds and otherwise the terminal fallback, whose category is Etc, price
0, and vector the 768-dimension zero vector. -/
theorem spec_c3 (readRes : Except Unit Unit) (genRes : Except Unit String)
    (embed : String → Except Unit (List ℚ)) (fname : String) :
    (analyzeBody readRes genRes embed fname = Except.error () →
      analyze_image readRes genRes embed fname = terminalFallback fname) ∧
    (∀ r : AnalysisRecord, analyzeBody readRes genRes embed fname = Except.ok r →
      analyze_image readRes genRes embed fname = r) ∧
    (terminalFallback fname).category = Json.str ("Etc") ∧
    (terminalFallback fname).price = 0 ∧
    (terminalFallback fname).vector = List.replicate 768 0 := by
  refine ⟨?_, ?_, rfl, rfl, rfl⟩
  · intro h
    unfold analyze_image
    rw [h]
  · intro r h
    unfold analyze_image
    rw [h]

/-- Claim C3 witness: when embedding generation fails for the normalized
text, the endpoint still returns the terminal fallback record. -/
theorem spec_c3_witness :
    analyze_image (Except.ok ()) (Except.ok ("hello")) (fun _ => Except.error ())
        ("item.png")
      = terminalFallback ("item.png") :=
  (spec_c3 (Except.ok ()) (Except.ok ("hello")) (fun _ => Except.error ())
    ("item.png")).1 rfl

/-- Claim C4 counterexample: in a successfully parsed record with a
wrongly typed (numeric) name and a valid category, the name validation
raises and triggers the full fallback, so the category field receives
neither its accepted extracted value nor its own per-field default. -/
theorem spec_c4_counterexample :
    extractData ("\x7b\"name\": 5, \"category\": \"Fashion\"\x7d")
      = Json.obj [("name", Json.num 5), ("category", Json.str ("Fashion"))] ∧
    normalizeFields (Json.obj [("name", Json.num 5), ("category", Json.str ("Fashion"))])
        ("img.png")
      = Except.error () ∧
    (analyze_image (Except.ok ())
        (Except.ok ("\x7b\"name\": 5, \"category\": \"Fashion\"\x7d"))
        (fun _ => Except.ok []) ("img.png")).category = Json.str ("Etc") :=
  ⟨rfl, rfl, rfl⟩

/-- Claim C4 as amended: per-field validation is independent whenever the
name and description validators themselves return (value absent, falsy, a
string, or a container): each output field is then its own accepted value
or its own per-field fallback, computed from its own entry alone; but a
name whose validation raises (a truthy non-container scalar) aborts
normalization, which the handler turns into the full fallback affecting
every field. -/
theorem spec_c4 (kvs : List (String × Json)) (fname : String) :
    (∀ n d : Json, validateName (pyGet kvs ("name")) fname = Except.ok n →
      validateDesc (pyGet kvs ("description")) = Except.ok d →
      normalizeFields (Json.obj kvs) fname =
        Except.ok ⟨n, (pyGet kvs ("category")).getD (Json.str ("Uncategorized")),
          d, coercePrice (pyGet kvs ("price"))⟩) ∧
    (validateName (pyGet kvs ("name")) fname = Except.error () →
      normalizeFields (Json.obj kvs) fname = Except.error ()) := by
  constructor
  · intro n d h1 h2
    simp only [normalizeFields]
    rw [h1, h2]
  · intro h1
    simp only [normalizeFields]
    rw [h1]

/-- Claim C4 witness: a record with an accepted name, an absent
description, and a present category normalizes each field independently. -/
theorem spec_c4_witness :
    normalizeFields
        (Json.obj [("name", Json.str ("예쁜 가죽 가방")), ("category", Json.str ("Fashion"))])
        ("img.png")
      = Except.ok ⟨Json.str ("예쁜 가죽 가방"), Json.str ("Fashion"),
          Json.str fallbackDesc, 0⟩ :=
  (spec_c4 [("name", Json.str ("예쁜 가죽 가방")), ("category", Json.str ("Fashion"))]
    ("img.png")).1 (Json.str ("예쁜 가죽 가방")) (Json.str fallbackDesc) rfl rfl

/-- Claim C1 counterexample: a raw text with a valid embedded
brace-delimited object followed by prose containing a further closing
brace — the greedy span runs to the last closing brace of the whole text,
parsing fails, and the fields of the object are not recovered. -/
theorem spec_c1_counterexample :
    parseJson ("\x7b\"name\": \"A\"\x7d") = some (Json.obj [("name", Json.str ("A"))]) ∧
    extractData ("\x7b\"name\": \"A\"\x7d \x7d") = Json.obj [] :=
  ⟨rfl, rfl⟩

/-- Claim C1 as amended: extraction locates the span from the leftmost
opening brace through the last closing brace of the whole text (greedy),
and parsing recovers exactly the fields of the object that this span,
after fencing stripping, denotes — in particular a markdown-fenced or
prose-wrapped object after whose closing brace no further closing brace
occurs. -/
theorem spec_c1 (s : String) (span : List Char) (kvs : List (String × Json))
    (h1 : regexSpan s.toList = some span)
    (h2 : parseJson (String.mk (stripFence span)) = some (Json.obj kvs)) :
    extractData s = Json.obj kvs := by
  simp only [extractData, h1, h2]

/-- Claim C1 witness: the fields of a fenced, prose-wrapped object are
recovered exactly. -/
theorem spec_c1_witness :
    extractData ("Sure! ```json\n\x7b\"name\": \"X\"\x7d\n```")
      = Json.obj [("name", Json.str ("X"))] :=
  spec_c1 ("Sure! ```json\n\x7b\"name\": \"X\"\x7d\n```") _ [("name", Json.str ("X"))]
    rfl rfl

/-- Membership in the structural filter pipeline yields the three
eligibility facts. -/
theorem mem_structFilter {p : Product} {items : List Product}
    (h : p ∈ structFilter items) :
    p ∈ items ∧ p.is_active = true ∧ p.deleted_at = none ∧
    p.embedding.isSome = true := by
  unfold structFilter at h
  rcases List.mem_filter.mp h with ⟨h2, hemb⟩
  rcases List.mem_filter.mp h2 with ⟨h3, hdel⟩
  rcases List.mem_filter.mp h3 with ⟨hmem, hact⟩
  refine ⟨hmem, hact, Option.isNone_iff_eq_none.mp hdel, ?_⟩
  cases he : p.embedding with
  | none => rw [he] at hemb; simp at hemb
  | some v => rfl

/-- Membership in the relevance gate yields the strict distance bound. -/
theorem mem_thresholdFilter {dist : List ℚ → List ℚ → ℚ} {qv : List ℚ}
    {θ : ℚ} {l : List Product} {p : Product}
    (h : p ∈ thresholdFilter dist qv θ l) :
    p ∈ l ∧ distOf dist qv p < θ := by
  unfold thresholdFilter at h
  rcases List.mem_filter.mp h with ⟨hm, hd⟩
  exact ⟨hm, of_decide_eq_true hd⟩

/-- The minimum-price filter only removes rows. -/
theorem filterMin_subset (a : Option Int) (l : List Product) :
    ∀ p ∈ filterMin a l, p ∈ l := by
  intro p hp
  cases a with
  | none => exact hp
  | some m => exact (List.mem_filter.mp hp).1

/-- The maximum-price filter only removes rows. -/
theorem filterMax_subset (a : Option Int) (l : List Product) :
    ∀ p ∈ filterMax a l, p ∈ l := by
  intro p hp
  cases a with
  | none => exact hp
  | some m => exact (List.mem_filter.mp hp).1

/-- The id exclusion filter only removes rows. -/
theorem filterExclId_subset (c : List Nat) (l : List Product) :
    ∀ p ∈ filterExclId c l, p ∈ l := by
  intro p hp
  unfold filterExclId at hp
  by_cases hc : c.isEmpty = true
  · rw [if_pos hc] at hp; exact hp
  · rw [if_neg hc] at hp; exact (List.mem_filter.mp hp).1

/-- The category exclusion filter only removes rows. -/
theorem filterExclCat_subset (c : List String) (l : List Product) :
    ∀ p ∈ filterExclCat c l, p ∈ l := by
  intro p hp
  unfold filterExclCat at hp
  by_cases hc : c.isEmpty = true
  · rw [if_pos hc] at hp; exact hp
  · rw [if_neg hc] at hp; exact (List.mem_filter.mp hp).1

/-- The optional filters only remove rows. -/
theorem optionalFilters_subset (a b : Option Int) (c : List Nat)
    (d : List String) (l : List Product) :
    ∀ p ∈ optionalFilters a b c d l, p ∈ l := by
  intro p hp
  exact filterMin_subset a l p (filterMax_subset b _ p
    (filterExclId_subset c _ p (filterExclCat_subset d _ p hp)))

/-- Membership in the full WHERE pipeline yields eligibility and the
distance bound. -/
theorem mem_searchFiltered {dist : List ℚ → List ℚ → ℚ} {items : List Product}
    {qv : List ℚ} {minP maxP : Option Int} {exI : List Nat} {exC : List String}
    {θ : ℚ} {p : Product}
    (h : p ∈ searchFiltered dist items qv minP maxP exI exC θ) :
    p ∈ items ∧ p.is_active = true ∧ p.deleted_at = none ∧
    p.embedding.isSome = true ∧ distOf dist qv p < θ := by
  have h1 := optionalFilters_subset minP maxP exI exC _ p h
  rcases mem_thresholdFilter h1 with ⟨h2, hd⟩
  rcases mem_structFilter h2 with ⟨hmem, hact, hdel, hemb⟩
  exact ⟨hmem, hact, hdel, hemb, hd⟩

/-- Claim C2: every item returned by the vector search is structurally
eligible (not soft-deleted, active, embedding present) and lies strictly
below the distance threshold; any item at or beyond the threshold is
excluded entirely.  The pipeline applies the structural filters before the
distance gate by construction of searchFiltered. -/
theorem spec_c2 (dist : List ℚ → List ℚ → ℚ) (items : List Product)
    (qv : List ℚ) (limit : Nat) (minP maxP : Option Int) (exI : List Nat)
    (exC : List String) (θ : ℚ) :
    (∀ p ∈ search_by_vector dist items qv limit minP maxP exI exC θ,
      p.deleted_at = none ∧ p.is_active = true ∧ p.embedding.isSome = true ∧
      distOf dist qv p < θ) ∧
    (∀ q : Product, θ ≤ distOf dist qv q →
      q ∉ search_by_vector dist items qv limit minP maxP exI exC θ) := by
  have hmain : ∀ p ∈ search_by_vector dist items qv limit minP maxP exI exC θ,
      p.deleted_at = none ∧ p.is_active = true ∧ p.embedding.isSome = true ∧
      distOf dist qv p < θ := by
    intro p hp
    have h1 : p ∈ List.insertionSort (distLe dist qv)
        (searchFiltered dist items qv minP maxP exI exC θ) :=
      List.mem_of_mem_take hp
    have h2 : p ∈ searchFiltered dist items qv minP maxP exI exC θ :=
      (List.perm_insertionSort (distLe dist qv) _).mem_iff.mp h1
    rcases mem_searchFiltered h2 with ⟨_, hact, hdel, hemb, hd⟩
    exact ⟨hdel, hact, hemb, hd⟩
  refine ⟨hmain, fun q hq hmem => ?_⟩
  exact absurd (hmain q hmem).2.2.2 (not_lt.mpr hq)

/-- Claim C2 witness: in a concrete catalog, the returned nearest item is
eligible and strictly below the threshold. -/
theorem spec_c2_witness :
    exP1.deleted_at = none ∧ exP1.is_active = true ∧
    exP1.embedding.isSome = true ∧ distOf headDist [0] exP1 < 2 :=
  (spec_c2 headDist [exP1, exP2] [0] 10 none none [] [] 2).1 exP1 (by decide)

/-- Claim C8: the vector search output is sorted by non-decreasing
distance, its length is capped by the limit, and the cap is applied after
filtering and ordering — every eligible filtered item left out of the
result is at least as far as every returned item. -/
theorem spec_c8 (dist : List ℚ → List ℚ → ℚ) (items : List Product)
    (qv : List ℚ) (limit : Nat) (minP maxP : Option Int) (exI : List Nat)
    (exC : List String) (θ : ℚ) :
    List.Sorted (distLe dist qv)
      (search_by_vector dist items qv limit minP maxP exI exC θ) ∧
    (search_by_vector dist items qv limit minP maxP exI exC θ).length ≤ limit ∧
    (∀ q ∈ searchFiltered dist items qv minP maxP exI exC θ,
      q ∉ search_by_vector dist items qv limit minP maxP exI exC θ →
      ∀ p ∈ search_by_vector dist items qv limit minP maxP exI exC θ,
        distOf dist qv p ≤ distOf dist qv q) := by
  have hsorted := List.sorted_insertionSort (distLe dist qv)
    (searchFiltered dist items qv minP maxP exI exC θ)
  refine ⟨?_, ?_, ?_⟩
  · exact List.Pairwise.sublist (List.take_sublist _ _) hsorted
  · exact List.length_take_le _ _
  · intro q hq hnot p hp
    have hqsorted : q ∈ List.insertionSort (distLe dist qv)
        (searchFiltered dist items qv minP maxP exI exC θ) :=
      (List.perm_insertionSort (distLe dist qv) _).mem_iff.mpr hq
    have hsplit := List.take_append_drop limit
      (List.insertionSort (distLe dist qv)
        (searchFiltered dist items qv minP maxP exI exC θ))
    have hpair : List.Pairwise (distLe dist qv)
        ((List.insertionSort (distLe dist qv)
          (searchFiltered dist items qv minP maxP exI exC θ)).take limit ++
         (List.insertionSort (distLe dist qv)
          (searchFiltered dist items qv minP maxP exI exC θ)).drop limit) := by
      rw [hsplit]
      exact hsorted
    have hcross := (List.pairwise_append.mp hpair).2.2
    have hqdrop : q ∈ (List.insertionSort (distLe dist qv)
        (searchFiltered dist items qv minP maxP exI exC θ)).drop limit := by
      rcases List.mem_append.mp (by rw [hsplit]; exact hqsorted) with h | h
      · exact absurd h hnot
      · exact h
    exact hcross p hp q hqdrop

/-- Claim C8 witness: with limit 1 in a two-item catalog, the returned
item is at least as close as the filtered item the cap left out. -/
theorem spec_c8_witness :
    distOf headDist [(0 : ℚ)] exP1 ≤ distOf headDist [(0 : ℚ)] exP2 :=
  (spec_c8 headDist [exP1, exP2] [0] 1 none none [] [] 10).2.2 exP2 (by decide)
    (by decide) exP1 (by decide)

/-- Claim C7: sanitization filters the cleansed input in order — the
output is a subsequence of the cleansed items, never longer than the
input, each output item is the cleansed form of some input item accepted
by schema validation, a null or under-2-characters-after-trim name is
replaced by the placeholder label, and the output length counts exactly
the items whose cleansed form validates (one unsanitizable item among N
valid ones yields exactly N results). -/
theorem spec_c7 (v : CleanRec → Bool) (items : List Product) :
    List.Sublist (sanitize v items) (items.map cleanse) ∧
    (sanitize v items).length ≤ items.length ∧
    (∀ d ∈ sanitize v items, ∃ p, p ∈ items ∧ d = cleanse p ∧ v d = true) ∧
    (∀ p : Product,
      (p.name = none ∨ ∃ s, p.name = some s ∧ (pyStrip s).length < 2) →
      (cleanse p).name = placeholderName) ∧
    (sanitize v items).length = List.countP (fun p => v (cleanse p)) items := by
  have he := sanitize_eq_filter v items
  refine ⟨by rw [he]; exact List.filter_sublist _, ?len, ?mem, ?nm, ?cnt⟩
  case len =>
    rw [he]
    calc ((items.map cleanse).filter v).length
        ≤ (items.map cleanse).length := List.length_filter_le _ _
      _ = items.length := List.length_map _ _
  · intro d hd
    rw [he] at hd
    rcases List.mem_filter.mp hd with ⟨hmem, hv⟩
    rcases List.mem_map.mp hmem with ⟨p, hp, hcl⟩
    exact ⟨p, hp, hcl.symm, hv⟩
  · intro p hp
    show cleanName p.name = placeholderName
    rcases hp with hnone | ⟨s, hs, hlen⟩
    · rw [hnone]
      rfl
    · rw [hs]
      show (if s.isEmpty = true then placeholderName
        else if (pyStrip s).length < 2 then placeholderName else s)
        = placeholderName
      by_cases hemp : s.isEmpty = true
      · rw [if_pos hemp]
      · rw [if_neg hemp, if_pos hlen]
  · rw [he, ← List.countP_eq_length_filter, List.countP_map]
    rfl

/-- Claim C7 witness: in a catalog of one valid and one unsanitizable
item, the surviving output item is the cleansed form of an input item
accepted by the spec-modelled schema validation. -/
theorem spec_c7_witness :
    ∃ p, p ∈ [exP1, exBad] ∧ cleanse exP1 = cleanse p ∧
      productResponseValid (cleanse exP1) = true :=
  (spec_c7 productResponseValid [exP1, exBad]).2.2.1 (cleanse exP1) (by decide)

end Modify
